import Mathlib

/-!
Verification of the logging bootstrap in `src/utils/logger.py`.

The file under verification is configuration glue over the `loguru` logging
library: `setup_logging` reads an optional YAML configuration file, extracts a
`logging` section with per-field defaults, clears the process-wide logger's
sinks, registers a colorized console sink and a rotating compressed file sink,
and `get_logger` returns a handle with a bound name.

Shallow embedding conventions:
* YAML documents are modelled by the inductive `Yaml`; the absent file, the
  malformed file and the parsed document are the three cases of `Env.configFile`.
* Python exceptions that can escape `setup_logging` are the constructors of
  `PyErr`: `yaml.YAMLError` from `yaml.safe_load` is `configParseError`,
  `AttributeError` from calling `.get` on a non-dict is `attributeError`, and
  `OSError` from `Path.mkdir` or from opening the log file is `filesystemError`
  (the spec's names for the first and last are `ConfigParseError` and
  `FilesystemError`).
* The filesystem is the explicit state `FS`: which directories exist, plus the
  external failure conditions (directories whose creation is denied, file paths
  that cannot be opened for writing).
* The process-wide logger's sink registry is an explicit `List Sink` threaded
  through `setup_logging`.
* `loguru` behaviour relevant to the claims, modelled from its documented
  semantics: `logger.remove()` with no arguments removes every sink;
  `logger.add` appends a sink (opening the file eagerly for a file sink);
  `logger.bind(**kwargs)` returns a handle whose `extra` mapping is updated
  with the keyword arguments, while the record's top-level `name` field is
  always the `__name__` of the module that made the logging call, and a
  `{name}` placeholder in a format string reads that top-level field (the
  bound `extra` entries are only reachable through `{extra[key]}` placeholders,
  which neither format in this file uses).
-/

/-- A parsed YAML document (`yaml.safe_load` result): scalars, sequences and
mappings. Mappings are association lists of string keys. -/
inductive Yaml where
  | null
  | bool (b : Bool)
  | int (n : Int)
  | str (s : String)
  | list (xs : List Yaml)
  | map (kvs : List (String × Yaml))

/-- Exceptions that can escape `setup_logging`, named per the spec's taxonomy:
`configParseError` is `yaml.YAMLError`, `filesystemError` is `OSError`, and
`attributeError` is Python's `AttributeError` (not in the spec's taxonomy;
raised by `.get` on a non-dict parse result). -/
inductive PyErr where
  | configParseError
  | attributeError
  | filesystemError
deriving DecidableEq

/-- First-match lookup in a YAML mapping (Python dict keys are unique). -/
def yLookup : List (String × Yaml) → String → Option Yaml
  | [], _ => none
  | (k, v) :: rest, key => if k = key then some v else yLookup rest key

/-- Python's `d.get(key, dflt)`: on a dict, lookup with default; on any other
value (`None`, list, scalar) the attribute access `.get` raises
`AttributeError`. -/
def pyGet (v : Yaml) (key : String) (dflt : Yaml) : Except PyErr Yaml :=
  match v with
  | .map kvs => .ok ((yLookup kvs key).getD dflt)
  | _ => .error .attributeError

/-- Python `str()` of a YAML scalar, as used by the f-string
`f"{max_size_mb} MB"` and by `Path(log_file)`. Rendering of containers is not
needed by any configuration the claims exercise and is abstracted to a fixed
marker. -/
def pyStr : Yaml → String
  | .null => "None"
  | .bool true => "True"
  | .bool false => "False"
  | .int n => toString n
  | .str s => s
  | .list _ => "<list>"
  | .map _ => "<dict>"

/-- The environment of one `setup_logging` call: the content of the
configuration file at `config_path`. `none` means `Path(config_path).exists()`
is false; `some (.error ())` means the file exists but `yaml.safe_load` raises
`yaml.YAMLError`; `some (.ok y)` means it parses to `y`. -/
structure Env where
  configFile : Option (Except Unit Yaml)

/-- Lines 12-18 of `logger.py`: load the config file if it exists and take
`config.get('logging', {})`; an absent file yields the empty section `{}`. -/
def loadLogConfig (env : Env) : Except PyErr Yaml :=
  match env.configFile with
  | none => .ok (Yaml.map [])
  | some (.error _) => .error .configParseError
  | some (.ok config) => pyGet config ("logging") (Yaml.map [])

/-- The four settings extracted on lines 20-24 of `logger.py`; each field holds
the raw YAML value handed on to `loguru` (the code performs no coercion). -/
structure Settings where
  level : Yaml
  file : Yaml
  max_size_mb : Yaml
  backup_count : Yaml

/-- Lines 20-24 of `logger.py`: `log_config.get(key, default)` for the four
settings, with the source's defaults. -/
def extractSettings (log_config : Yaml) : Except PyErr Settings := do
  let level ← pyGet log_config ("level") (Yaml.str ("INFO"))
  let file ← pyGet log_config ("file") (Yaml.str ("logs/bot.log"))
  let max_size_mb ← pyGet log_config ("max_size_mb") (Yaml.int 10)
  let backup_count ← pyGet log_config ("backup_count") (Yaml.int 5)
  .ok ⟨level, file, max_size_mb, backup_count⟩

/-- The settings `setup_logging` computes before touching the logger:
lines 12-24 of `logger.py` composed. -/
def settingsOf (env : Env) : Except PyErr Settings :=
  (loadLogConfig env).bind extractSettings

/-- The settings value when every key falls back to its default. -/
def defaultSettings : Settings :=
  ⟨Yaml.str ("INFO"), Yaml.str ("logs/bot.log"), Yaml.int 10, Yaml.int 5⟩

example : settingsOf ⟨none⟩ = .ok defaultSettings := rfl
example : settingsOf ⟨some (.ok (Yaml.map [(("logging"), Yaml.map [(("level"), Yaml.str ("DEBUG"))])]))⟩
    = .ok ⟨Yaml.str ("DEBUG"), Yaml.str ("logs/bot.log"), Yaml.int 10, Yaml.int 5⟩ := rfl
example : settingsOf ⟨some (.ok Yaml.null)⟩ = .error .attributeError := rfl

/-- The filesystem state and its external failure conditions: `dirs` is the set
of directories that exist, `mkdirDenied` the directories whose creation fails
with `OSError` (e.g. permissions), `openDenied` the file paths that cannot be
opened for writing. -/
structure FS where
  dirs : List String
  mkdirDenied : List String
  openDenied : List String
deriving DecidableEq

/-- `Path(p).parent` rendered as a string: everything before the last `/`, or
`.` when the path has no directory component. -/
def parentDir (p : String) : String :=
  let rev := p.data.reverse
  let after := rev.dropWhile (fun c => c ≠ '/')
  if after = [] then "." else
    if (after.drop 1) = [] then "/" else String.mk (after.drop 1).reverse

example : parentDir ("logs/bot.log") = "logs" := rfl
example : parentDir ("bot.log") = "." := rfl
example : parentDir ("a/b/c.log") = "a/b" := rfl

/-- `Path(d).mkdir(parents=True, exist_ok=True)`: succeeds without change when
`d` exists, raises `OSError` when creation is denied, otherwise creates `d`
(intermediate ancestors are abstracted into the single created entry). -/
def mkdirP (fs : FS) (d : String) : Except PyErr FS :=
  if d ∈ fs.dirs then .ok fs
  else if d ∈ fs.mkdirDenied then .error .filesystemError
  else .ok { fs with dirs := d :: fs.dirs }

/-- Where a sink writes: `sys.stdout` or a file path. -/
inductive SinkTarget where
  | stdout
  | file (path : String)
deriving DecidableEq

/-- One registered `loguru` sink, holding exactly the keyword arguments the
source passes to `logger.add` (`none` for arguments it does not pass). -/
structure Sink where
  target : SinkTarget
  format : String
  level : Yaml
  colorize : Option Bool
  rotation : Option String
  retention : Option Yaml
  compression : Option String

/-- The console format string from lines 32 of `logger.py`, verbatim. -/
def consoleFormat : String :=
  "<green>{time:YYYY-MM-DD HH:mm:ss}</green> | <level>{level: <8}</level> | <cyan>{name}</cyan>:<cyan>{function}</cyan>:<cyan>{line}</cyan> - <level>{message}</level>"

/-- The file format string from line 44 of `logger.py`, verbatim. -/
def fileFormat : String :=
  "{time:YYYY-MM-DD HH:mm:ss} | {level: <8} | {name}:{function}:{line} - {message}"

/-- The console sink registered on lines 30-35 of `logger.py`. -/
def mkConsoleSink (log_level : Yaml) : Sink :=
  { target := .stdout
    format := consoleFormat
    level := log_level
    colorize := some true
    rotation := none
    retention := none
    compression := none }

/-- The file sink registered on lines 42-49 of `logger.py`:
`rotation=f"{max_size_mb} MB"`, `retention=backup_count`,
`compression="zip"`. -/
def mkFileSink (st : Settings) : Sink :=
  { target := .file (pyStr st.file)
    format := fileFormat
    level := st.level
    colorize := none
    rotation := some (pyStr st.max_size_mb ++ " MB")
    retention := some st.backup_count
    compression := some ("zip") }

/-- `setup_logging(config_path)` from `logger.py`, as explicit state passing:
given the config-file content `env`, the filesystem `fs` and the process-wide
logger's current sink list `sinks`, it returns the sink list, the filesystem
and the outcome after the call. Steps, in source order:
lines 12-24 load the config and extract the settings (exceptions propagate with
the logger untouched); line 27 `logger.remove()` clears every sink; lines 30-35
add the console sink; lines 38-39 create the log file's parent directory;
lines 42-49 add the file sink, opening the file eagerly. The final
`logger.info(...)` on line 51 emits one record through the configured sinks
(see `emitThrough`/`renderRecord`) and does not change sink or filesystem
state. -/
def setup_logging (env : Env) (fs : FS) (sinks : List Sink) :
    List Sink × FS × Except PyErr Unit :=
  match settingsOf env with
  | .error e => (sinks, fs, .error e)
  | .ok st =>
      let sinks1 := [mkConsoleSink st.level]
      let logFile := pyStr st.file
      match mkdirP fs (parentDir logFile) with
      | .error e => (sinks1, fs, .error e)
      | .ok fs2 =>
          if logFile ∈ fs2.openDenied then (sinks1, fs2, .error .filesystemError)
          else (sinks1 ++ [mkFileSink st], fs2, .ok ())

example : setup_logging ⟨none⟩ ⟨[], [], []⟩ [] =
    ([mkConsoleSink (Yaml.str ("INFO")), mkFileSink defaultSettings],
      ⟨[("logs")], [], []⟩, .ok ()) := rfl
example : (setup_logging ⟨some (.error ())⟩ ⟨[], [], []⟩ []).2.2 =
    .error .configParseError := rfl
example : setup_logging ⟨none⟩ ⟨[], [("logs")], []⟩ [] =
    ([mkConsoleSink (Yaml.str ("INFO"))], ⟨[], [("logs")], []⟩,
      .error .filesystemError) := rfl

/-- One emitted log record, as `loguru` builds it: the top-level fields used by
the two format strings, plus the `extra` mapping that `bind` populates. The
`name` field is the `__name__` of the module that made the logging call; `time`
carries the already-rendered timestamp (clock and time formatting are the
engine's, out of scope per the spec). -/
structure Record where
  name : String
  function : String
  line : Nat
  level : String
  message : String
  time : String
  extra : List (String × String)

/-- A piece of a parsed format string: a literal character, or a `{...}`
placeholder holding the text between the braces. -/
inductive FmtTok where
  | lit (c : Char)
  | field (spec : List Char)

/-- Parse a format string into tokens; `fuel` bounds the recursion (each step
consumes at least one character, so `length + 1` fuel always suffices). -/
def parseFmtAux : Nat → List Char → List FmtTok
  | 0, _ => []
  | _, [] => []
  | Nat.succ fuel, '{' :: rest =>
      FmtTok.field (rest.takeWhile (fun c => c ≠ '}')) ::
        parseFmtAux fuel ((rest.dropWhile (fun c => c ≠ '}')).drop 1)
  | Nat.succ fuel, c :: rest => FmtTok.lit c :: parseFmtAux fuel rest

/-- Parse a whole format string. -/
def parseFmt (fmt : String) : List FmtTok :=
  parseFmtAux (fmt.data.length + 1) fmt.data

/-- Python's `format(value, " <8")`: left-align and pad with spaces to width
8, as the `{level: <8}` placeholder requests. -/
def padTo8 (s : List Char) : List Char :=
  s ++ List.replicate (8 - s.length) ' '

/-- The value of one `{...}` placeholder on a record: the part before `:` names
a top-level record field, the part after it is the format spec (`" <8"` pads to
width 8; the `time` pattern is consumed by the engine's timestamp rendering,
which `Record.time` already carries). A `{name}` placeholder reads the
top-level `name` field -- never the `extra` mapping, which only `{extra[key]}`
placeholders (unused in this file) can reach. -/
def fieldValue (spec : List Char) (r : Record) : List Char :=
  let key := spec.takeWhile (fun c => c ≠ ':')
  let fmtsp := (spec.dropWhile (fun c => c ≠ ':')).drop 1
  let raw : List Char :=
    if key = ("time").data then r.time.data
    else if key = ("level").data then r.level.data
    else if key = ("name").data then r.name.data
    else if key = ("function").data then r.function.data
    else if key = ("line").data then (toString r.line).data
    else if key = ("message").data then r.message.data
    else []
  if fmtsp = (" <8").data then padTo8 raw else raw

/-- Render a token list on a record. -/
def renderToks (r : Record) : List FmtTok → List Char
  | [] => []
  | FmtTok.lit c :: ts => c :: renderToks r ts
  | FmtTok.field spec :: ts => fieldValue spec r ++ renderToks r ts

/-- Render a format string on a record, substituting every `{...}`
placeholder (colour markup such as `<green>` is left for the engine's
colouring pass, out of scope per the spec). -/
def renderRecord (fmt : String) (r : Record) : String :=
  String.mk (renderToks r (parseFmt fmt))

example : renderRecord fileFormat
    { name := "src.main", function := "run", line := 42, level := "INFO",
      message := "hi", time := "2024-01-01 12:00:00", extra := [] }
    = "2024-01-01 12:00:00 | INFO     | src.main:run:42 - hi" := rfl

/-- A `loguru` logger handle. The sink registry lives in the process-wide
core (the `List Sink` threaded through `setup_logging` and shared by every
handle); a handle itself only carries the `extra` mapping that `bind`
accumulates. -/
structure LoguruHandle where
  extra : List (String × String)

/-- The importable `logger` object: empty `extra`. -/
def baseLogger : LoguruHandle := ⟨[]⟩

/-- `handle.bind(k=v)`: a new handle whose `extra` mapping is updated with the
binding (most recent binding first). -/
def bindKV (h : LoguruHandle) (k v : String) : LoguruHandle :=
  ⟨(k, v) :: h.extra⟩

/-- First-match lookup in an `extra` mapping. -/
def sLookup : List (String × String) → String → Option String
  | [], _ => none
  | (k, v) :: rest, key => if k = key then some v else sLookup rest key

/-- `__name__` of the module defining `get_logger` (`src/utils/logger.py`,
imported as `src.utils.logger`). Python evaluates a `def`'s default-argument
expressions once, at function definition time, in the defining module -- so
this constant, not the caller's module name, is the default below. -/
def loggerModuleName : String := "src.utils.logger"

/-- `get_logger(name=__name__)` from lines 55-59 of `logger.py`:
`logger.bind(name=name)`. The default for an omitted `name` is the constant
`loggerModuleName` (see its docstring). -/
def get_logger (name : String := loggerModuleName) : LoguruHandle :=
  bindKV baseLogger ("name") name

/-- Build the record that a call `h.info(message)` (or any level) emits when
made from module `callerModule`, function `fn`, line `line`: the top-level
`name` field is the calling module's `__name__`; the handle contributes only
its `extra` mapping. -/
def emitThrough (h : LoguruHandle) (callerModule fn : String) (line : Nat)
    (level message time : String) : Record :=
  { name := callerModule
    function := fn
    line := line
    level := level
    message := message
    time := time
    extra := h.extra }

/-- What each sink writes for one record: its target paired with the record
rendered through that sink's format string. Severity filtering is the
engine's, out of scope per the spec (a sink whose level filters the record out
simply writes nothing; this never affects sink counts or rendered content). -/
def emitRecord (sinks : List Sink) (r : Record) : List (SinkTarget × String) :=
  sinks.map (fun s => (s.target, renderRecord s.format r))

/-- The lines a single record puts on the console: one per console sink. -/
def consoleLines (sinks : List Sink) (r : Record) : List String :=
  (emitRecord sinks r).filterMap
    (fun p => if p.1 = SinkTarget.stdout then some p.2 else none)

example : sLookup (get_logger ("moduleA")).extra ("name") = some ("moduleA") := rfl
example : sLookup (get_logger : LoguruHandle).extra ("name") = some ("src.utils.logger") := rfl

/-- The record at C3's failing input: `get_logger("moduleA")` used from module
`"src.main"`, function `run`, line 42, emitting `INFO "hi"`. -/
def moduleARecord : Record :=
  emitThrough (get_logger ("moduleA")) ("src.main") ("run") 42 ("INFO") ("hi")
    ("2024-01-01 12:00:00")

/-- A successful `mkdir` leaves the directory existing. -/
theorem mkdirP_mem_dirs {fs fs' : FS} {d : String} (h : mkdirP fs d = .ok fs') :
    d ∈ fs'.dirs := by
  unfold mkdirP at h
  split at h
  · cases h; assumption
  · split at h
    · cases h
    · cases h; exact List.mem_cons_self _ _

/-- A successful `mkdir` does not change which files can be opened. -/
theorem mkdirP_openDenied {fs fs' : FS} {d : String} (h : mkdirP fs d = .ok fs') :
    fs'.openDenied = fs.openDenied := by
  unfold mkdirP at h
  split at h
  · cases h; rfl
  · split at h
    · cases h
    · cases h; rfl

/-- `mkdir` with `exist_ok=True` is idempotent once it has succeeded. -/
theorem mkdirP_idem {fs fs' : FS} {d : String} (h : mkdirP fs d = .ok fs') :
    mkdirP fs' d = .ok fs' := by
  have hd := mkdirP_mem_dirs h
  unfold mkdirP
  simp [hd]

/-- Inversion of a successful `setup_logging` call: the settings were
extracted, the parent directory was created, the log file was openable, and
the resulting sink set is exactly the console sink followed by the file
sink. -/
theorem setup_logging_ok_inv {env : Env} {fs : FS} {s s1 : List Sink} {fs1 : FS}
    (h : setup_logging env fs s = (s1, fs1, .ok ())) :
    ∃ st, settingsOf env = .ok st ∧
      mkdirP fs (parentDir (pyStr st.file)) = .ok fs1 ∧
      pyStr st.file ∉ fs1.openDenied ∧
      s1 = [mkConsoleSink st.level, mkFileSink st] := by
  unfold setup_logging at h
  split at h
  · simp at h
  · next st hst =>
    dsimp only at h
    split at h
    · simp at h
    · next fs2 hm =>
      split at h
      · simp at h
      · next hop =>
        simp only [List.singleton_append, Prod.mk.injEq] at h
        obtain ⟨h1, h2, -⟩ := h
        subst h2
        exact ⟨st, hst, hm, hop, h1.symm⟩

/-- C2: with no configuration file, or with a parsed mapping that has no
`logging` section, `setup_logging` applies every default field-by-field:
level `"INFO"`, file `"logs/bot.log"`, rotation size `10` MB, `5` retained
backups. -/
theorem settings_default_when_config_absent (env : Env)
    (h : env.configFile = none ∨
      ∃ kvs, env.configFile = some (.ok (Yaml.map kvs)) ∧
        yLookup kvs ("logging") = none) :
    settingsOf env =
      .ok ⟨Yaml.str ("INFO"), Yaml.str ("logs/bot.log"), Yaml.int 10, Yaml.int 5⟩ := by
  have hload : loadLogConfig env = .ok (Yaml.map []) := by
    rcases h with h | ⟨kvs, h, hl⟩
    · simp [loadLogConfig, h]
    · simp [loadLogConfig, h, pyGet, hl]
  unfold settingsOf
  rw [hload]
  rfl

/-- C2 witness: the absent-file case, evaluated. -/
theorem settings_default_when_config_absent_witness :
    settingsOf ⟨none⟩ =
      .ok ⟨Yaml.str ("INFO"), Yaml.str ("logs/bot.log"), Yaml.int 10, Yaml.int 5⟩ :=
  settings_default_when_config_absent ⟨none⟩ (Or.inl rfl)

/-- C4: when the configuration file exists but is malformed, `setup_logging`
fails with the parse error (spec name `ConfigParseError`), which propagates
to the caller before any sink or filesystem mutation -- no retry, no local
recovery. -/
theorem setup_logging_config_parse_error (env : Env) (fs : FS) (s : List Sink)
    (h : env.configFile = some (.error ())) :
    setup_logging env fs s = (s, fs, .error .configParseError) := by
  have hst : settingsOf env = .error .configParseError := by
    simp [settingsOf, loadLogConfig, h, Except.bind]
  simp [setup_logging, hst]

/-- C4 witness: a malformed configuration file, evaluated. -/
theorem setup_logging_config_parse_error_witness :
    setup_logging ⟨some (.error ())⟩ ⟨[], [], []⟩ [] =
      ([], ⟨[], [], []⟩, .error .configParseError) :=
  setup_logging_config_parse_error ⟨some (.error ())⟩ ⟨[], [], []⟩ [] rfl

/-- C9: when the configuration file parses to a value that is not a mapping
(`null` from an empty file, a list, a scalar), `setup_logging` raises
`AttributeError` from the `.get` lookup of the `logging` section -- it neither
falls back to defaults nor raises a parse error, and the logger state is
untouched. -/
theorem setup_logging_nonmapping_attribute_error (env : Env) (fs : FS)
    (s : List Sink) (y : Yaml)
    (h : env.configFile = some (.ok y)) (hm : ∀ kvs, y ≠ Yaml.map kvs) :
    setup_logging env fs s = (s, fs, .error .attributeError) := by
  have hload : loadLogConfig env = .error .attributeError := by
    unfold loadLogConfig
    rw [h]
    cases y with
    | map kvs => exact absurd rfl (hm kvs)
    | _ => rfl
  have hst : settingsOf env = .error .attributeError := by
    simp [settingsOf, hload, Except.bind]
  simp [setup_logging, hst]

/-- C9 witness: an empty YAML file parses to `null`, evaluated. -/
theorem setup_logging_nonmapping_attribute_error_witness :
    setup_logging ⟨some (.ok Yaml.null)⟩ ⟨[], [], []⟩ [] =
      ([], ⟨[], [], []⟩, .error .attributeError) :=
  setup_logging_nonmapping_attribute_error ⟨some (.ok Yaml.null)⟩ ⟨[], [], []⟩ []
    Yaml.null rfl (fun _ h => Yaml.noConfusion h)

/-- C1: `setup_logging` clears every previously registered sink before adding
the console and file sinks, so a second call from the state a successful call
left behind reproduces exactly the same sink set and filesystem, and any
single record emitted through that sink set appears exactly once on the
console. -/
theorem setup_logging_idempotent (env : Env) (fs : FS) (s s1 : List Sink)
    (fs1 : FS) (h : setup_logging env fs s = (s1, fs1, .ok ())) :
    setup_logging env fs1 s1 = (s1, fs1, .ok ()) ∧
    ∀ r, (consoleLines s1 r).length = 1 := by
  obtain ⟨st, hst, hm, hop, hs1⟩ := setup_logging_ok_inv h
  constructor
  · unfold setup_logging
    rw [hst]
    dsimp only
    rw [mkdirP_idem hm]
    simp [hop, hs1]
  · intro r
    rw [hs1]
    simp [consoleLines, emitRecord, mkConsoleSink, mkFileSink]

/-- C1 witness: a successful first call with no configuration file, its
resulting state fed back in. -/
theorem setup_logging_idempotent_witness :
    setup_logging ⟨none⟩ ⟨[("logs")], [], []⟩
        [mkConsoleSink (Yaml.str ("INFO")), mkFileSink defaultSettings] =
      ([mkConsoleSink (Yaml.str ("INFO")), mkFileSink defaultSettings],
        ⟨[("logs")], [], []⟩, .ok ()) ∧
    ∀ r, (consoleLines
      [mkConsoleSink (Yaml.str ("INFO")), mkFileSink defaultSettings] r).length = 1 :=
  setup_logging_idempotent ⟨none⟩ ⟨[], [], []⟩ []
    [mkConsoleSink (Yaml.str ("INFO")), mkFileSink defaultSettings]
    ⟨[("logs")], [], []⟩ rfl

/-- C6: once the settings are extracted, a denied parent-directory creation or
an unopenable log file makes `setup_logging` fail with the filesystem error
(spec name `FilesystemError`), surfaced to the caller in a single attempt --
the returned state shows no retry was made. -/
theorem setup_logging_filesystem_error (env : Env) (fs : FS) (s : List Sink)
    (st : Settings) (hok : settingsOf env = .ok st) :
    (mkdirP fs (parentDir (pyStr st.file)) = .error .filesystemError →
      setup_logging env fs s =
        ([mkConsoleSink st.level], fs, .error .filesystemError)) ∧
    (∀ fs2, mkdirP fs (parentDir (pyStr st.file)) = .ok fs2 →
      pyStr st.file ∈ fs2.openDenied →
      setup_logging env fs s =
        ([mkConsoleSink st.level], fs2, .error .filesystemError)) := by
  constructor
  · intro hm
    unfold setup_logging
    rw [hok]
    dsimp only
    rw [hm]
  · intro fs2 hm hop
    unfold setup_logging
    rw [hok]
    dsimp only
    rw [hm]
    simp [hop]

/-- C6 witness: creation of `logs` denied under the default settings. -/
theorem setup_logging_filesystem_error_witness :
    setup_logging ⟨none⟩ ⟨[], [("logs")], []⟩ [] =
      ([mkConsoleSink (Yaml.str ("INFO"))], ⟨[], [("logs")], []⟩,
        .error .filesystemError) :=
  (setup_logging_filesystem_error ⟨none⟩ ⟨[], [("logs")], []⟩ [] defaultSettings
    rfl).1 rfl

/-- C7: after a successful `setup_logging` call, the parent directory of the
configured log file path exists on the filesystem. -/
theorem setup_logging_parent_dir_exists (env : Env) (fs : FS) (s s1 : List Sink)
    (fs1 : FS) (st : Settings) (hok : settingsOf env = .ok st)
    (h : setup_logging env fs s = (s1, fs1, .ok ())) :
    parentDir (pyStr st.file) ∈ fs1.dirs := by
  obtain ⟨st', hst', hm, -, -⟩ := setup_logging_ok_inv h
  rw [hok] at hst'
  cases hst'
  exact mkdirP_mem_dirs hm

/-- C7 witness: the default settings on an empty filesystem; `logs` exists
afterwards. -/
theorem setup_logging_parent_dir_exists_witness :
    parentDir (pyStr defaultSettings.file) ∈ (FS.mk [("logs")] [] []).dirs :=
  setup_logging_parent_dir_exists ⟨none⟩ ⟨[], [], []⟩ []
    [mkConsoleSink (Yaml.str ("INFO")), mkFileSink defaultSettings]
    ⟨[("logs")], [], []⟩ defaultSettings rfl rfl

/-- C8: the file sink a successful `setup_logging` call registers is
configured with size-based rotation at the configured megabyte count
(`rotation=f"{max_size_mb} MB"`), count-based retention of `backup_count`
archives (`retention=backup_count`; `loguru` discards the oldest beyond that)
and compression of rotated files (`compression="zip"`). -/
theorem setup_logging_file_sink_config (env : Env) (fs : FS) (s s1 : List Sink)
    (fs1 : FS) (st : Settings) (hok : settingsOf env = .ok st)
    (h : setup_logging env fs s = (s1, fs1, .ok ())) :
    s1 = [mkConsoleSink st.level, mkFileSink st] ∧
    (mkFileSink st).rotation = some (pyStr st.max_size_mb ++ " MB") ∧
    (mkFileSink st).retention = some st.backup_count ∧
    (mkFileSink st).compression = some ("zip") := by
  obtain ⟨st', hst', -, -, hs1⟩ := setup_logging_ok_inv h
  rw [hok] at hst'
  cases hst'
  exact ⟨hs1, rfl, rfl, rfl⟩

/-- C8 witness: a configured size of 25 MB and 3 backups, evaluated. -/
theorem setup_logging_file_sink_config_witness :
    [mkConsoleSink (Yaml.str ("INFO")),
      mkFileSink ⟨Yaml.str ("INFO"), Yaml.str ("logs/bot.log"), Yaml.int 25, Yaml.int 3⟩] =
      [mkConsoleSink (Yaml.str ("INFO")),
        mkFileSink ⟨Yaml.str ("INFO"), Yaml.str ("logs/bot.log"), Yaml.int 25, Yaml.int 3⟩] ∧
    (mkFileSink ⟨Yaml.str ("INFO"), Yaml.str ("logs/bot.log"), Yaml.int 25, Yaml.int 3⟩).rotation
      = some ("25 MB") ∧
    (mkFileSink ⟨Yaml.str ("INFO"), Yaml.str ("logs/bot.log"), Yaml.int 25, Yaml.int 3⟩).retention
      = some (Yaml.int 3) ∧
    (mkFileSink ⟨Yaml.str ("INFO"), Yaml.str ("logs/bot.log"), Yaml.int 25, Yaml.int 3⟩).compression
      = some ("zip") :=
  setup_logging_file_sink_config
    ⟨some (.ok (Yaml.map [(("logging"),
      Yaml.map [(("max_size_mb"), Yaml.int 25), (("backup_count"), Yaml.int 3)])]))⟩
    ⟨[], [], []⟩ []
    [mkConsoleSink (Yaml.str ("INFO")),
      mkFileSink ⟨Yaml.str ("INFO"), Yaml.str ("logs/bot.log"), Yaml.int 25, Yaml.int 3⟩]
    ⟨[("logs")], [], []⟩
    ⟨Yaml.str ("INFO"), Yaml.str ("logs/bot.log"), Yaml.int 25, Yaml.int 3⟩ rfl rfl

/-- C10: `setup_logging` is not atomic on a filesystem failure: whether the
parent directory cannot be created or the log file cannot be opened when the
file sink is registered, the prior sinks are already gone and the console
sink is already registered, so the resulting sink set is the lone console
sink -- neither the pre-call set (whenever that differed from a lone console
sink) nor the fully configured console-plus-file set. -/
theorem setup_logging_not_atomic (env : Env) (fs : FS) (s : List Sink)
    (st : Settings) (hok : settingsOf env = .ok st)
    (hpre : s ≠ [mkConsoleSink st.level])
    (hfail : mkdirP fs (parentDir (pyStr st.file)) = .error .filesystemError ∨
      ∃ fs2, mkdirP fs (parentDir (pyStr st.file)) = .ok fs2 ∧
        pyStr st.file ∈ fs2.openDenied) :
    (setup_logging env fs s).1 = [mkConsoleSink st.level] ∧
    (setup_logging env fs s).2.2 = .error .filesystemError ∧
    [mkConsoleSink st.level] ≠ s ∧
    [mkConsoleSink st.level] ≠ [mkConsoleSink st.level, mkFileSink st] := by
  have hmain : (setup_logging env fs s).1 = [mkConsoleSink st.level] ∧
      (setup_logging env fs s).2.2 = .error .filesystemError := by
    rcases hfail with hm | ⟨fs2, hm, hop⟩
    · unfold setup_logging
      rw [hok]
      dsimp only
      rw [hm]
      exact ⟨rfl, rfl⟩
    · unfold setup_logging
      rw [hok]
      dsimp only
      rw [hm]
      simp [hop]
  exact ⟨hmain.1, hmain.2, fun hcontra => hpre hcontra.symm, by simp⟩

/-- C5 counterexample: with `name` omitted, the handle is bound to the fixed
string `"src.utils.logger"` -- the `__name__` of the bootstrap module,
evaluated once at function definition time -- so for a caller in module
`"src.main"` it is not bound to the caller's identity. -/
theorem get_logger_default_counterexample :
    sLookup (get_logger : LoguruHandle).extra ("name") = some ("src.utils.logger") ∧
    ¬ sLookup (get_logger : LoguruHandle).extra ("name") = some ("src.main") := by
  decide

/-- C5 amended: when `name` is omitted, `get_logger` binds the defining
module's own fixed `__name__` (`loggerModuleName`), independent of the
caller. -/
theorem get_logger_default_is_defining_module :
    (get_logger : LoguruHandle) = bindKV baseLogger ("name") loggerModuleName ∧
    sLookup (get_logger : LoguruHandle).extra ("name") = some loggerModuleName :=
  ⟨rfl, rfl⟩

set_option maxRecDepth 100000 in
/-- C3: at the failing input, the bound name `"moduleA"` is attached as
contextual metadata (`extra`), but the rendered output's `{name}` field shows
the emitting module `"src.main"`, and `"moduleA"` appears nowhere in the line
rendered by either sink format -- `loguru`'s `bind` populates only `extra`,
which neither format string reads. -/
theorem bound_name_absent_from_rendered_output :
    sLookup moduleARecord.extra ("name") = some ("moduleA") ∧
    renderRecord fileFormat moduleARecord =
      "2024-01-01 12:00:00 | INFO     | src.main:run:42 - hi" ∧
    ¬ (("moduleA").data <:+: (renderRecord fileFormat moduleARecord).data) ∧
    ¬ (("moduleA").data <:+: (renderRecord consoleFormat moduleARecord).data) := by
  refine ⟨rfl, rfl, by decide, by decide⟩

/-- C10 witness: file-sink registration fails because `logs/bot.log` cannot be
opened (the directory creation itself succeeds), starting from an empty sink
set; the call leaves the lone console sink behind. -/
theorem setup_logging_not_atomic_witness :
    (setup_logging ⟨none⟩ ⟨[], [], [("logs/bot.log")]⟩ []).1 =
      [mkConsoleSink (Yaml.str ("INFO"))] ∧
    (setup_logging ⟨none⟩ ⟨[], [], [("logs/bot.log")]⟩ []).2.2 =
      .error .filesystemError ∧
    [mkConsoleSink (Yaml.str ("INFO"))] ≠ ([] : List Sink) ∧
    [mkConsoleSink (Yaml.str ("INFO"))] ≠
      [mkConsoleSink (Yaml.str ("INFO")), mkFileSink defaultSettings] :=
  setup_logging_not_atomic ⟨none⟩ ⟨[], [], [("logs/bot.log")]⟩ [] defaultSettings
    rfl (fun h => List.noConfusion h)
    (Or.inr ⟨⟨[("logs")], [], [("logs/bot.log")]⟩, rfl, by decide⟩)
